import Mathlib

/-!
Verification of the plugin host in `pkg/resource/plugin/host.go`.

The host keeps three caches of loaded plugins (analyzers, language runtimes,
resource providers), a flat list of every plugin ever loaded, and a channel of
load requests served by a single worker goroutine.  Because every load closure
runs on that single worker, the registry logic is a sequential function of the
host state; we embed it as explicit state passing.  External collaborators
(`NewAnalyzer`, `NewProvider`, `NewLanguageRuntime`, `GetPluginInfo`, the
`ConfigSource`, `Configure`, the `Events` callback, the `PULUMI_DEV`
environment variable, `hostServer.Cancel`) are modelled as an `Env` of pure
functions; plugin handles are opaque numeric identifiers handed out by the
environment.  Observable side effects (process spawns, warning diagnostics,
`Configure` calls, plugin `Close` calls) are recorded in an event trace.
-/

namespace PluginHost

/-- A semantic version, `blang/semver` restricted to release versions
(major, minor, patch); the host never constructs pre-release versions. -/
structure SemVer where
  major : Nat
  minor : Nat
  patch : Nat
deriving DecidableEq, Repr

/-- `a.GTE b` from `blang/semver`: lexicographic comparison of
(major, minor, patch), true when `a` is not below `b`. -/
def SemVer.GTE (a b : SemVer) : Bool :=
  if a.major ≠ b.major then decide (a.major > b.major)
  else if a.minor ≠ b.minor then decide (a.minor > b.minor)
  else decide (a.patch ≥ b.patch)

/-- `Version.String()` for release versions. -/
def SemVer.str (a : SemVer) : String :=
  toString a.major ++ "." ++ toString a.minor ++ "." ++ toString a.patch

/-- `workspace.PluginKind`. -/
inductive PluginKind where
  | analyzerKind
  | languageKind
  | resourceKind
deriving DecidableEq, Repr

/-- `workspace.PluginInfo`, restricted to the fields the host reads. -/
structure PluginInfo where
  name : String
  kind : PluginKind
  version : Option SemVer
deriving DecidableEq, Repr

/-- `analyzerPlugin`: a cached analyzer plugin and its info. -/
structure analyzerPlugin where
  Plugin : Nat
  Info : PluginInfo
deriving DecidableEq, Repr

/-- `languagePlugin`: a cached language plugin and its info. -/
structure languagePlugin where
  Plugin : Nat
  Info : PluginInfo
deriving DecidableEq, Repr

/-- `resourcePlugin`: a cached resource provider plugin and its info. -/
structure resourcePlugin where
  Plugin : Nat
  Info : PluginInfo
deriving DecidableEq, Repr

/-- Association-list lookup, modelling a Go map read `m[k]`. -/
def lookupMap {β : Type} (k : String) : List (String × β) → Option β
  | [] => none
  | (k', v) :: rest => if k = k' then some v else lookupMap k rest

/-- Association-list insertion, modelling a Go map write `m[k] = v`.
The host only writes keys that are absent, so prepending is faithful. -/
def insertMap {β : Type} (k : String) (v : β) (m : List (String × β)) :
    List (String × β) :=
  (k, v) :: m

/-- The mutable state of a `defaultHost`: the three caches, the flat plugin
list, and whether `close(host.loadRequests)` has already run. -/
structure HostState where
  analyzerPlugins : List (String × analyzerPlugin)
  languagePlugins : List (String × languagePlugin)
  resourcePlugins : List (String × resourcePlugin)
  plugins : List PluginInfo
  loadRequestsClosed : Bool
deriving DecidableEq, Repr

/-- The state built by `NewDefaultHost`: empty caches, open load channel. -/
def newDefaultHost : HostState :=
  { analyzerPlugins := []
    languagePlugins := []
    resourcePlugins := []
    plugins := []
    loadRequestsClosed := false }

/-- Errors a host operation can return.  Constructors record which source
line produced the error; external errors carry the collaborator message. -/
inductive HostError where
  | external (msg : String)
  | infoError (msg : String)
  | versionUnknown (requested : SemVer)
  | versionMismatch (requested found : SemVer)
  | configFetchError (pkg msg : String)
  | configureError (pkg msg : String)
  | callbackError (msg : String)
deriving DecidableEq, Repr

/-- Observable side effects of host operations. -/
inductive HostEvent where
  | spawn (kind : PluginKind) (key : String)
  | warning (msg : String)
  | configureCall (handle : Nat) (ok : Bool)
  | closeCall (handle : Nat)
deriving DecidableEq, Repr

/-- The result of one host method run on the load worker: the Go pair
`(plugin, error)` (`Except.ok none` is Go `(nil, nil)`), the state after the
call, and the trace of side effects it performed. -/
structure CallResult (α : Type) where
  ret : Except HostError (Option α)
  state : HostState
  trace : List HostEvent

deriving instance DecidableEq for Except

instance {α : Type} [DecidableEq α] : DecidableEq (CallResult α) := by
  intro a b
  cases a
  cases b
  rw [CallResult.mk.injEq]
  exact inferInstance

/-- The part of `workspace.Project` the host reads. -/
structure Project where
  Runtime : String
  Analyzers : Option (List String)
deriving DecidableEq, Repr

/-- The part of `ProgInfo` the host reads. -/
structure ProgInfo where
  Proj : Project
deriving DecidableEq, Repr

/-- The external collaborators of the host, as pure functions.  Handles are
numeric identifiers chosen by the environment. -/
structure Env where
  newAnalyzer : String → Except String (Option Nat)
  newProvider : String → Option SemVer → Except String (Option Nat)
  newLanguageRuntime : String → Except String (Option Nat)
  getPluginInfo : Nat → Except String PluginInfo
  config : Option (String → Except String (List (String × String)))
  configure : Nat → List (String × String) → Option String
  events : Option (PluginInfo → Option String)
  langRequiredPlugins : Nat → ProgInfo → Except String (List PluginInfo)
  pulumiDev : Bool
  serverCancel : Option String

/-- Fetch provider configuration: `host.config.GetPackageConfig(pkg)` when a
config source is present, the empty map otherwise. -/
def getConfig (env : Env) (pkg : String) :
    Except String (List (String × String)) :=
  match env.config with
  | none => .ok []
  | some cs => cs pkg

/-- Fire `host.events.OnPluginLoad(info)` after memoization: a callback error
is returned to the caller, but the state keeps the inserted entry. -/
def fireEvents (env : Env) (info : PluginInfo) (s : HostState)
    (tr : List HostEvent) (plug : Nat) : CallResult Nat :=
  match env.events with
  | none => ⟨.ok (some plug), s, tr⟩
  | some onLoad =>
    match onLoad info with
    | some e => ⟨.error (.callbackError e), s, tr⟩
    | none => ⟨.ok (some plug), s, tr⟩

/-- Cache-miss body of `Analyzer`: spawn via `NewAnalyzer`, fetch plugin info,
memoize, fire the load event.  No failure path closes the child. -/
def analyzerLoad (env : Env) (s : HostState) (name : String) : CallResult Nat :=
  match env.newAnalyzer name with
  | .error e => ⟨.error (.external e), s, []⟩
  | .ok none => ⟨.ok none, s, []⟩
  | .ok (some plug) =>
    match env.getPluginInfo plug with
    | .error e => ⟨.error (.infoError e), s, [.spawn .analyzerKind name]⟩
    | .ok info =>
      fireEvents env info
        { s with
          plugins := s.plugins ++ [info]
          analyzerPlugins := insertMap name ⟨plug, info⟩ s.analyzerPlugins }
        [.spawn .analyzerKind name] plug

/-- `defaultHost.Analyzer`: return the cached plugin when present, otherwise
load one. -/
def Analyzer (env : Env) (s : HostState) (name : String) : CallResult Nat :=
  match lookupMap name s.analyzerPlugins with
  | some plug => ⟨.ok (some plug.Plugin), s, []⟩
  | none => analyzerLoad env s name

/-- Cache-miss body of `LanguageRuntime`, same shape as `analyzerLoad`. -/
def languageLoad (env : Env) (s : HostState) (runtime : String) :
    CallResult Nat :=
  match env.newLanguageRuntime runtime with
  | .error e => ⟨.error (.external e), s, []⟩
  | .ok none => ⟨.ok none, s, []⟩
  | .ok (some plug) =>
    match env.getPluginInfo plug with
    | .error e => ⟨.error (.infoError e), s, [.spawn .languageKind runtime]⟩
    | .ok info =>
      fireEvents env info
        { s with
          plugins := s.plugins ++ [info]
          languagePlugins := insertMap runtime ⟨plug, info⟩ s.languagePlugins }
        [.spawn .languageKind runtime] plug

/-- `defaultHost.LanguageRuntime`. -/
def LanguageRuntime (env : Env) (s : HostState) (runtime : String) :
    CallResult Nat :=
  match lookupMap runtime s.languagePlugins with
  | some plug => ⟨.ok (some plug.Plugin), s, []⟩
  | none => languageLoad env s runtime

/-- The head of the stale-version warning text of `host.go`.  An absent
version prints as the empty string. -/
def warnPrefix (name : String) (v : SemVer) (actual : Option SemVer) : String :=
  "resource plugin " ++ name ++ " is expected to have version >=" ++ v.str ++
    ", but has " ++ (match actual with | none => "" | some a => a.str)

/-- The full stale-version warning text of `host.go`. -/
def warnMsg (name : String) (v : SemVer) (actual : Option SemVer) : String :=
  warnPrefix name v actual ++
    "; the wrong version may be on your path, or this may be a bug in the plugin"

/-- The stale-version warning events of `Provider` on a cache miss: emitted
when a version was requested, `PULUMI_DEV` is not truthy, and the discovered
version is missing or lower. -/
def providerWarnings (env : Env) (version : Option SemVer)
    (info : PluginInfo) : List HostEvent :=
  match version with
  | none => []
  | some v =>
    if env.pulumiDev then []
    else
      match info.version with
      | none => [.warning (warnMsg info.name v none)]
      | some cv =>
        if cv.GTE v then [] else [.warning (warnMsg info.name v (some cv))]

/-- Cache-miss body of `Provider`: spawn via `NewProvider`, fetch plugin info,
maybe warn about a stale version, fetch configuration, `Configure` exactly
once, memoize, fire the load event.  No failure path closes the child. -/
def providerLoad (env : Env) (s : HostState) (pkg : String)
    (version : Option SemVer) : CallResult Nat :=
  match env.newProvider pkg version with
  | .error e => ⟨.error (.external e), s, []⟩
  | .ok none => ⟨.ok none, s, []⟩
  | .ok (some plug) =>
    match env.getPluginInfo plug with
    | .error e => ⟨.error (.infoError e), s, [.spawn .resourceKind pkg]⟩
    | .ok info =>
      match getConfig env pkg with
      | .error e =>
        ⟨.error (.configFetchError pkg e), s,
          .spawn .resourceKind pkg :: providerWarnings env version info⟩
      | .ok cfg =>
        match env.configure plug cfg with
        | some e =>
          ⟨.error (.configureError pkg e), s,
            .spawn .resourceKind pkg :: providerWarnings env version info ++
              [.configureCall plug false]⟩
        | none =>
          fireEvents env info
            { s with
              plugins := s.plugins ++ [info]
              resourcePlugins := insertMap pkg ⟨plug, info⟩ s.resourcePlugins }
            (.spawn .resourceKind pkg :: providerWarnings env version info ++
              [.configureCall plug true]) plug

/-- Cache-hit body of `Provider`: check the cached version against a requested
one, and return the cached handle without touching the state. -/
def providerCacheHit (s : HostState) (plug : resourcePlugin)
    (version : Option SemVer) : CallResult Nat :=
  match version with
  | none => ⟨.ok (some plug.Plugin), s, []⟩
  | some v =>
    match plug.Info.version with
    | none => ⟨.error (.versionUnknown v), s, []⟩
    | some cached =>
      if cached.GTE v then ⟨.ok (some plug.Plugin), s, []⟩
      else ⟨.error (.versionMismatch v cached), s, []⟩

/-- `defaultHost.Provider`. -/
def Provider (env : Env) (s : HostState) (pkg : String)
    (version : Option SemVer) : CallResult Nat :=
  match lookupMap pkg s.resourcePlugins with
  | some plug => providerCacheHit s plug version
  | none => providerLoad env s pkg version

/-- `defaultHost.ListPlugins`. -/
def ListPlugins (s : HostState) : List PluginInfo :=
  s.plugins

/-- `defaultHost.Close`: close every cached plugin (errors are logged and
ignored), empty the three maps, close the load channel — a panic (`none`)
when it is already closed — and cancel the RPC server.  The flat `plugins`
list is left as is. -/
def Close (env : Env) (s : HostState) :
    Option (HostState × List HostEvent × Option String) :=
  if s.loadRequestsClosed then none
  else
    some
      ({ s with
          analyzerPlugins := []
          languagePlugins := []
          resourcePlugins := []
          loadRequestsClosed := true },
        s.analyzerPlugins.map (fun kv => .closeCall kv.2.Plugin) ++
          s.resourcePlugins.map (fun kv => .closeCall kv.2.Plugin) ++
          s.languagePlugins.map (fun kv => .closeCall kv.2.Plugin),
        env.serverCancel)

/-- `Flags`, a bitset over the three plugin kinds (`1 << iota`). -/
abbrev Flags := Nat

/-- `AnalyzerPlugins` filter bit. -/
def AnalyzerPlugins : Flags := 1

/-- `LanguagePlugins` filter bit. -/
def LanguagePlugins : Flags := 2

/-- `ResourcePlugins` filter bit. -/
def ResourcePlugins : Flags := 4

/-- The `PluginInfo` recorded for the language runtime itself: name and kind
only, no version. -/
def langPluginInfo (runtime : String) : PluginInfo :=
  { name := runtime, kind := .languageKind, version := none }

/-- The analyzer section of `GetRequiredPlugins`: when the project lists
analyzers and the analyzer bit is set, append one unversioned entry each. -/
def analyzerSection (info : ProgInfo) (kinds : Flags)
    (plugins : List PluginInfo) : List PluginInfo :=
  match info.Proj.Analyzers with
  | none => plugins
  | some names =>
    if kinds.land AnalyzerPlugins ≠ 0 then
      plugins ++ names.map (fun a =>
        { name := a, kind := .analyzerKind, version := none })
    else plugins

/-- `defaultHost.GetRequiredPlugins`.  `none` models a panic: either the
`contract.Assertf` in the no-language branch firing, or the nil language
runtime being dereferenced when `LanguageRuntime` returned `(nil, nil)` and
resource discovery was requested. -/
def GetRequiredPlugins (env : Env) (s : HostState) (info : ProgInfo)
    (kinds : Flags) :
    Option (Except HostError (List PluginInfo) × HostState × List HostEvent) :=
  if kinds.land LanguagePlugins ≠ 0 then
    let r := LanguageRuntime env s info.Proj.Runtime
    match r.ret with
    | .error e => some (.error e, r.state, r.trace)
    | .ok none =>
      if kinds.land ResourcePlugins ≠ 0 then none
      else
        some (.ok (analyzerSection info kinds [langPluginInfo info.Proj.Runtime]),
          r.state, r.trace)
    | .ok (some lang) =>
      if kinds.land ResourcePlugins ≠ 0 then
        match env.langRequiredPlugins lang info with
        | .error e => some (.error (.external e), r.state, r.trace)
        | .ok deps =>
          some (.ok (analyzerSection info kinds
            (langPluginInfo info.Proj.Runtime :: deps)), r.state, r.trace)
      else
        some (.ok (analyzerSection info kinds [langPluginInfo info.Proj.Runtime]),
          r.state, r.trace)
  else
    -- contract.Assertf(kinds&ResourcePlugins != 0, "cannot load resource
    -- plugins without also loading the language plugin")
    if kinds.land ResourcePlugins = 0 then none
    else some (.ok (analyzerSection info kinds []), s, [])

/-- One request submitted to the load worker. -/
inductive HostCall where
  | analyzer (name : String)
  | provider (pkg : String) (version : Option SemVer)
  | languageRuntime (runtime : String)
deriving DecidableEq, Repr

/-- The state after serving one load request. -/
def stepState (env : Env) (s : HostState) : HostCall → HostState
  | .analyzer n => (Analyzer env s n).state
  | .provider p v => (Provider env s p v).state
  | .languageRuntime r => (LanguageRuntime env s r).state

/-- The events emitted while serving one load request. -/
def stepTrace (env : Env) (s : HostState) : HostCall → List HostEvent
  | .analyzer n => (Analyzer env s n).trace
  | .provider p v => (Provider env s p v).trace
  | .languageRuntime r => (LanguageRuntime env s r).trace

/-- The state after serving a FIFO sequence of load requests. -/
def runCalls (env : Env) (s : HostState) : List HostCall → HostState
  | [] => s
  | c :: cs => runCalls env (stepState env s c) cs

/-- The cumulative event trace of a FIFO sequence of load requests. -/
def runTrace (env : Env) (s : HostState) : List HostCall → List HostEvent
  | [] => []
  | c :: cs => stepTrace env s c ++ runTrace env (stepState env s c) cs

/-- How many resource-provider processes for package `pkg` a trace spawns. -/
def spawnCount (pkg : String) : List HostEvent → Nat
  | [] => 0
  | .spawn .resourceKind p :: rest =>
    (if p = pkg then 1 else 0) + spawnCount pkg rest
  | _ :: rest => spawnCount pkg rest

/-- How many `Configure` calls on handle `h` with outcome `ok` a trace holds. -/
def configureCount (h : Nat) (ok : Bool) : List HostEvent → Nat
  | [] => 0
  | .configureCall h' ok' :: rest =>
    (if h' = h ∧ ok' = ok then 1 else 0) + configureCount h ok rest
  | _ :: rest => configureCount h ok rest

/-- How many plugin `Close` calls a trace holds. -/
def closeCount : List HostEvent → Nat
  | [] => 0
  | .closeCall _ :: rest => 1 + closeCount rest
  | _ :: rest => closeCount rest

/-- How many warning diagnostics a trace holds. -/
def warningCount : List HostEvent → Nat
  | [] => 0
  | .warning _ :: rest => 1 + warningCount rest
  | _ :: rest => warningCount rest

/-- The `PluginInfo` entries currently held across the three kind maps. -/
def pluginInfos (s : HostState) : List PluginInfo :=
  s.analyzerPlugins.map (fun kv => kv.2.Info) ++
    s.languagePlugins.map (fun kv => kv.2.Info) ++
    s.resourcePlugins.map (fun kv => kv.2.Info)

/-! ### Concrete environments for witnesses and counterexamples -/

/-- A fully successful environment: every constructor yields a plugin handle,
`GetPluginInfo` answers for each handle, configuration and callbacks succeed.
The provider reports version 1.2.0. -/
def envOk : Env where
  newAnalyzer := fun _ => .ok (some 3)
  newProvider := fun _ _ => .ok (some 7)
  newLanguageRuntime := fun _ => .ok (some 11)
  getPluginInfo := fun h =>
    if h = 7 then .ok ⟨"aws", .resourceKind, some ⟨1, 2, 0⟩⟩
    else if h = 3 then .ok ⟨"policy", .analyzerKind, none⟩
    else .ok ⟨"nodejs", .languageKind, none⟩
  config := none
  configure := fun _ _ => none
  events := none
  langRequiredPlugins := fun _ _ => .ok []
  pulumiDev := false
  serverCancel := none

/-- `envOk` with `PULUMI_DEV` truthy. -/
def envDev : Env :=
  { envOk with pulumiDev := true }

/-- An environment whose constructors report neither a plugin nor an error:
the Go `(nil, nil)` case. -/
def envNilPlugin : Env :=
  { envOk with
    newAnalyzer := fun _ => .ok none
    newProvider := fun _ _ => .ok none
    newLanguageRuntime := fun _ => .ok none }

/-- An environment in which every spawn succeeds but `GetPluginInfo` then
fails, so every load fails after its process has started. -/
def envInfoFail : Env :=
  { envOk with getPluginInfo := fun _ => .error "boom" }

/-- An environment in which loads succeed but the `OnPluginLoad` callback
fails. -/
def envCallbackFail : Env :=
  { envOk with events := some (fun _ => some "cbboom") }

/-- An environment in which `Configure` fails. -/
def envConfigureFail : Env :=
  { envOk with configure := fun _ _ => some "cfgboom" }

/-- The program info used by concrete scenarios. -/
def progInfo0 : ProgInfo :=
  ⟨⟨"nodejs", some ["policy-a"]⟩⟩

/-! ### Basic lemmas about the registry maps and traces -/

theorem lookupMap_insert_self {β : Type} (k : String) (v : β)
    (m : List (String × β)) : lookupMap k (insertMap k v m) = some v := by
  simp [lookupMap, insertMap]

theorem lookupMap_insert_ne {β : Type} {k k' : String} (v : β)
    (m : List (String × β)) (h : k ≠ k') :
    lookupMap k (insertMap k' v m) = lookupMap k m := by
  simp [lookupMap, insertMap, h]

theorem fireEvents_state (env : Env) (info : PluginInfo) (s : HostState)
    (tr : List HostEvent) (p : Nat) : (fireEvents env info s tr p).state = s := by
  unfold fireEvents
  repeat' split
  all_goals rfl

theorem fireEvents_trace (env : Env) (info : PluginInfo) (s : HostState)
    (tr : List HostEvent) (p : Nat) : (fireEvents env info s tr p).trace = tr := by
  unfold fireEvents
  repeat' split
  all_goals rfl

theorem providerCacheHit_state (s : HostState) (plug : resourcePlugin)
    (v : Option SemVer) : (providerCacheHit s plug v).state = s := by
  unfold providerCacheHit
  repeat' split
  all_goals rfl

theorem providerCacheHit_trace (s : HostState) (plug : resourcePlugin)
    (v : Option SemVer) : (providerCacheHit s plug v).trace = [] := by
  unfold providerCacheHit
  repeat' split
  all_goals rfl

theorem Provider_hit (env : Env) (s : HostState) (pkg : String)
    (v : Option SemVer) (plug : resourcePlugin)
    (h : lookupMap pkg s.resourcePlugins = some plug) :
    Provider env s pkg v = providerCacheHit s plug v := by
  unfold Provider
  rw [h]

theorem Provider_miss (env : Env) (s : HostState) (pkg : String)
    (v : Option SemVer) (h : lookupMap pkg s.resourcePlugins = none) :
    Provider env s pkg v = providerLoad env s pkg v := by
  unfold Provider
  rw [h]

/-- Every host operation leaves the state unchanged or inserts exactly one
entry (analyzer form). -/
theorem Analyzer_state_cases (env : Env) (s : HostState) (n : String) :
    (Analyzer env s n).state = s ∨
    ∃ plug info, (Analyzer env s n).state =
      { s with
        plugins := s.plugins ++ [info]
        analyzerPlugins := insertMap n ⟨plug, info⟩ s.analyzerPlugins } := by
  unfold Analyzer analyzerLoad
  repeat' split
  · exact Or.inl rfl
  · exact Or.inl rfl
  · exact Or.inl rfl
  · exact Or.inl rfl
  · rw [fireEvents_state]
    exact Or.inr ⟨_, _, rfl⟩

/-- Every host operation leaves the state unchanged or inserts exactly one
entry (language form). -/
theorem LanguageRuntime_state_cases (env : Env) (s : HostState) (n : String) :
    (LanguageRuntime env s n).state = s ∨
    ∃ plug info, (LanguageRuntime env s n).state =
      { s with
        plugins := s.plugins ++ [info]
        languagePlugins := insertMap n ⟨plug, info⟩ s.languagePlugins } := by
  unfold LanguageRuntime languageLoad
  repeat' split
  · exact Or.inl rfl
  · exact Or.inl rfl
  · exact Or.inl rfl
  · exact Or.inl rfl
  · rw [fireEvents_state]
    exact Or.inr ⟨_, _, rfl⟩

/-- Every host operation leaves the state unchanged or inserts exactly one
entry (provider form). -/
theorem Provider_state_cases (env : Env) (s : HostState) (pkg : String)
    (v : Option SemVer) :
    (Provider env s pkg v).state = s ∨
    ∃ plug info, (Provider env s pkg v).state =
      { s with
        plugins := s.plugins ++ [info]
        resourcePlugins := insertMap pkg ⟨plug, info⟩ s.resourcePlugins } := by
  unfold Provider providerLoad
  repeat' split
  · rw [providerCacheHit_state]
    exact Or.inl rfl
  · exact Or.inl rfl
  · exact Or.inl rfl
  · exact Or.inl rfl
  · exact Or.inl rfl
  · exact Or.inl rfl
  · rw [fireEvents_state]
    exact Or.inr ⟨_, _, rfl⟩

/-- `Analyzer` never touches the resource-provider map. -/
theorem Analyzer_resourcePlugins (env : Env) (s : HostState) (n : String) :
    (Analyzer env s n).state.resourcePlugins = s.resourcePlugins := by
  rcases Analyzer_state_cases env s n with h | ⟨plug, info, h⟩ <;> rw [h]

/-- `LanguageRuntime` never touches the resource-provider map. -/
theorem LanguageRuntime_resourcePlugins (env : Env) (s : HostState)
    (n : String) :
    (LanguageRuntime env s n).state.resourcePlugins = s.resourcePlugins := by
  rcases LanguageRuntime_state_cases env s n with h | ⟨plug, info, h⟩ <;> rw [h]

/-- A cached resource provider stays cached, with the same entry, across any
host operation: entries are never removed or replaced before `Close`. -/
theorem stepState_resource_lookup (env : Env) (s : HostState) (c : HostCall)
    {pkg : String} {e : resourcePlugin}
    (h : lookupMap pkg s.resourcePlugins = some e) :
    lookupMap pkg (stepState env s c).resourcePlugins = some e := by
  cases c with
  | analyzer n => rw [stepState, Analyzer_resourcePlugins]; exact h
  | languageRuntime n => rw [stepState, LanguageRuntime_resourcePlugins]; exact h
  | provider pkg' v =>
    rw [stepState]
    cases hl : lookupMap pkg' s.resourcePlugins with
    | some plug => rw [Provider_hit env s pkg' v plug hl, providerCacheHit_state]; exact h
    | none =>
      have hne : pkg ≠ pkg' := by
        intro hEq
        rw [hEq, hl] at h
        exact Option.noConfusion h
      rcases Provider_state_cases env s pkg' v with hc | ⟨plug, info, hc⟩
      · rw [hc]; exact h
      · rw [hc]
        show lookupMap pkg (insertMap pkg' ⟨plug, info⟩ s.resourcePlugins) = some e
        rw [lookupMap_insert_ne _ _ hne]
        exact h

/-- Cached resource providers survive any FIFO sequence of load requests. -/
theorem runCalls_resource_lookup (env : Env) (cs : List HostCall)
    (s : HostState) {pkg : String} {e : resourcePlugin}
    (h : lookupMap pkg s.resourcePlugins = some e) :
    lookupMap pkg (runCalls env s cs).resourcePlugins = some e := by
  induction cs generalizing s with
  | nil => exact h
  | cons c cs ih => exact ih _ (stepState_resource_lookup env s c h)

/-! ### Spawn counting -/

theorem spawnCount_append (pkg : String) (a b : List HostEvent) :
    spawnCount pkg (a ++ b) = spawnCount pkg a + spawnCount pkg b := by
  induction a with
  | nil => simp [spawnCount]
  | cons x a ih =>
    cases x with
    | spawn k key =>
      cases k with
      | analyzerKind => simp [spawnCount, ih]
      | languageKind => simp [spawnCount, ih]
      | resourceKind =>
        simp [spawnCount, ih]
        omega
    | warning m => simp [spawnCount, ih]
    | configureCall h' o => simp [spawnCount, ih]
    | closeCall h' => simp [spawnCount, ih]

/-- The stale-version warnings contain no spawn events. -/
theorem spawnCount_providerWarnings (pkg : String) (env : Env)
    (v : Option SemVer) (info : PluginInfo) :
    spawnCount pkg (providerWarnings env v info) = 0 := by
  unfold providerWarnings
  repeat' split
  all_goals rfl

/-- The trace of a provider cache miss is empty, or one spawn of that package
followed by warnings and configure events only. -/
theorem providerLoad_trace_cases (env : Env) (s : HostState) (pkg : String)
    (v : Option SemVer) :
    (providerLoad env s pkg v).trace = [] ∨
    ∃ tr, (providerLoad env s pkg v).trace =
        HostEvent.spawn .resourceKind pkg :: tr ∧
      ∀ q, spawnCount q tr = 0 := by
  unfold providerLoad
  repeat' split
  · exact Or.inl rfl
  · exact Or.inl rfl
  · exact Or.inr ⟨[], rfl, fun q => rfl⟩
  · exact Or.inr ⟨_, rfl, fun q => spawnCount_providerWarnings q env v _⟩
  · refine Or.inr ⟨_, rfl, fun q => ?_⟩
    rw [List.append_eq, spawnCount_append, spawnCount_providerWarnings]
    rfl
  · rw [fireEvents_trace]
    refine Or.inr ⟨_, rfl, fun q => ?_⟩
    rw [List.append_eq, spawnCount_append, spawnCount_providerWarnings]
    rfl

/-- A single `Provider` call spawns at most one process for its own package. -/
theorem Provider_spawnCount_le_one (env : Env) (s : HostState) (pkg : String)
    (v : Option SemVer) (q : String) :
    spawnCount q (Provider env s pkg v).trace ≤ 1 := by
  unfold Provider
  cases hl : lookupMap pkg s.resourcePlugins with
  | some plug =>
    rw [providerCacheHit_trace]
    exact Nat.zero_le 1
  | none =>
    rcases providerLoad_trace_cases env s pkg v with h | ⟨tr, h, hq⟩ <;> rw [h]
    · exact Nat.zero_le 1
    · by_cases hqe : pkg = q <;> simp [spawnCount, hqe, hq]

/-- A `Provider` call for one package never spawns a process for another. -/
theorem Provider_spawnCount_other (env : Env) (s : HostState) (pkg : String)
    (v : Option SemVer) {q : String} (hne : q ≠ pkg) :
    spawnCount q (Provider env s pkg v).trace = 0 := by
  unfold Provider
  cases hl : lookupMap pkg s.resourcePlugins with
  | some plug =>
    rw [providerCacheHit_trace]
    rfl
  | none =>
    rcases providerLoad_trace_cases env s pkg v with h | ⟨tr, h, hq⟩ <;> rw [h]
    · rfl
    · simp [spawnCount, hq, Ne.symm hne]

/-- `Analyzer` never spawns a resource-provider process. -/
theorem Analyzer_spawnCount (env : Env) (s : HostState) (n : String)
    (q : String) : spawnCount q (Analyzer env s n).trace = 0 := by
  unfold Analyzer analyzerLoad
  repeat' split
  · rfl
  · rfl
  · rfl
  · rfl
  · rw [fireEvents_trace]
    rfl

/-- `LanguageRuntime` never spawns a resource-provider process. -/
theorem LanguageRuntime_spawnCount (env : Env) (s : HostState) (n : String)
    (q : String) : spawnCount q (LanguageRuntime env s n).trace = 0 := by
  unfold LanguageRuntime languageLoad
  repeat' split
  · rfl
  · rfl
  · rfl
  · rfl
  · rw [fireEvents_trace]
    rfl

/-- `fireEvents` either returns the loaded plugin or a callback error. -/
theorem fireEvents_ret_cases (env : Env) (info : PluginInfo) (s : HostState)
    (tr : List HostEvent) (p : Nat) :
    (fireEvents env info s tr p).ret = .ok (some p) ∨
    ∃ e, (fireEvents env info s tr p).ret = .error (.callbackError e) := by
  unfold fireEvents
  repeat' split
  · exact Or.inl rfl
  · exact Or.inr ⟨_, rfl⟩
  · exact Or.inl rfl

/-- When `Provider` returns a handle, that handle is cached for the package
in the post-state. -/
theorem Provider_success_lookup (env : Env) (s : HostState) (pkg : String)
    (v : Option SemVer) (h0 : Nat)
    (hsucc : (Provider env s pkg v).ret = .ok (some h0)) :
    ∃ e : resourcePlugin,
      lookupMap pkg (Provider env s pkg v).state.resourcePlugins = some e ∧
      e.Plugin = h0 := by
  rcases hl : lookupMap pkg s.resourcePlugins with _ | plug
  · rw [Provider_miss env s pkg v hl] at hsucc ⊢
    unfold providerLoad at hsucc ⊢
    repeat' split at hsucc
    · exact absurd hsucc (by simp)
    · exact absurd hsucc (by simp)
    · exact absurd hsucc (by simp)
    · exact absurd hsucc (by simp)
    · exact absurd hsucc (by simp)
    · rcases fireEvents_ret_cases env _ _ _ _ with hr | ⟨e, hr⟩
      · rw [hr] at hsucc
        injection hsucc with hsucc
        injection hsucc with hsucc
        rw [fireEvents_state]
        exact ⟨_, lookupMap_insert_self pkg _ _, hsucc⟩
      · rw [hr] at hsucc
        exact absurd hsucc (by simp)
  · rw [Provider_hit env s pkg v plug hl] at hsucc ⊢
    cases v with
    | none =>
      simp only [providerCacheHit] at hsucc ⊢
      injection hsucc with h1
      injection h1 with h1
      exact ⟨plug, hl, h1⟩
    | some vr =>
      cases hv : plug.Info.version with
      | none =>
        simp only [providerCacheHit, hv] at hsucc
        exact absurd hsucc (by simp)
      | some cached =>
        by_cases hg : cached.GTE vr = true
        · simp only [providerCacheHit, hv, hg, if_true] at hsucc ⊢
          injection hsucc with h1
          injection h1 with h1
          exact ⟨plug, hl, h1⟩
        · simp only [providerCacheHit, hv] at hsucc
          rw [if_neg hg] at hsucc
          exact absurd hsucc (by simp)

theorem configureCount_append (h : Nat) (ok : Bool) (a b : List HostEvent) :
    configureCount h ok (a ++ b) =
      configureCount h ok a + configureCount h ok b := by
  induction a with
  | nil => simp [configureCount]
  | cons x a ih =>
    cases x with
    | spawn k key => simp [configureCount, ih]
    | warning m => simp [configureCount, ih]
    | configureCall h' o => simp [configureCount, ih]; omega
    | closeCall h' => simp [configureCount, ih]

/-- The stale-version warnings contain no `Configure` events. -/
theorem configureCount_providerWarnings (h : Nat) (ok : Bool) (env : Env)
    (v : Option SemVer) (info : PluginInfo) :
    configureCount h ok (providerWarnings env v info) = 0 := by
  unfold providerWarnings
  repeat' split
  all_goals rfl

/-- If a package is already cached, no host operation spawns a process
for it. -/
theorem stepTrace_spawnCount_cached (env : Env) (s : HostState) (c : HostCall)
    {pkg : String} {e : resourcePlugin}
    (h : lookupMap pkg s.resourcePlugins = some e) :
    spawnCount pkg (stepTrace env s c) = 0 := by
  cases c with
  | analyzer n => exact Analyzer_spawnCount env s n pkg
  | languageRuntime n => exact LanguageRuntime_spawnCount env s n pkg
  | provider pkg' v =>
    show spawnCount pkg (Provider env s pkg' v).trace = 0
    by_cases hpe : pkg = pkg'
    · subst hpe
      rw [Provider_hit env s pkg v e h, providerCacheHit_trace]
      rfl
    · exact Provider_spawnCount_other env s pkg' v hpe

/-- If a package is already cached, a whole FIFO sequence of load requests
spawns no process for it. -/
theorem runTrace_spawnCount_cached (env : Env) (cs : List HostCall)
    (s : HostState) {pkg : String} {e : resourcePlugin}
    (h : lookupMap pkg s.resourcePlugins = some e) :
    spawnCount pkg (runTrace env s cs) = 0 := by
  induction cs generalizing s with
  | nil => rfl
  | cons c cs ih =>
    rw [runTrace, spawnCount_append, stepTrace_spawnCount_cached env s c h,
      ih _ (stepState_resource_lookup env s c h)]

/-! ### Permutation between the flat list and the kind maps -/

/-- One host operation preserves the permutation between the flat plugin list
and the entries of the three kind maps. -/
theorem stepState_perm (env : Env) (s : HostState) (c : HostCall)
    (h : s.plugins.Perm (pluginInfos s)) :
    (stepState env s c).plugins.Perm (pluginInfos (stepState env s c)) := by
  cases c with
  | analyzer n =>
    rcases Analyzer_state_cases env s n with hc | ⟨plug, info, hc⟩ <;>
      rw [stepState, hc]
    · exact h
    · show (s.plugins ++ [info]).Perm (pluginInfos _)
      simp only [pluginInfos, insertMap, List.map_cons, List.cons_append]
      exact (List.perm_append_singleton info s.plugins).trans (h.cons info)
  | languageRuntime n =>
    rcases LanguageRuntime_state_cases env s n with hc | ⟨plug, info, hc⟩ <;>
      rw [stepState, hc]
    · exact h
    · show (s.plugins ++ [info]).Perm (pluginInfos _)
      have h' : s.plugins.Perm
          (s.analyzerPlugins.map (fun kv => kv.2.Info) ++
            (s.languagePlugins.map (fun kv => kv.2.Info) ++
              s.resourcePlugins.map (fun kv => kv.2.Info))) := by
        simpa [pluginInfos, List.append_assoc] using h
      simp only [pluginInfos, insertMap, List.map_cons, List.append_assoc,
        List.cons_append]
      exact (List.perm_append_singleton info s.plugins).trans
        ((h'.cons info).trans List.perm_middle.symm)
  | provider pkg v =>
    rcases Provider_state_cases env s pkg v with hc | ⟨plug, info, hc⟩ <;>
      rw [stepState, hc]
    · exact h
    · show (s.plugins ++ [info]).Perm (pluginInfos _)
      have h' : s.plugins.Perm
          (s.analyzerPlugins.map (fun kv => kv.2.Info) ++
            (s.languagePlugins.map (fun kv => kv.2.Info) ++
              s.resourcePlugins.map (fun kv => kv.2.Info))) := by
        simpa [pluginInfos, List.append_assoc] using h
      simp only [pluginInfos, insertMap, List.map_cons, List.append_assoc,
        List.cons_append]
      exact (List.perm_append_singleton info s.plugins).trans
        (((h'.cons info).trans List.perm_middle.symm).trans
          (List.Perm.append_left _ List.perm_middle.symm))

/-- The permutation invariant holds along any FIFO sequence of load requests
starting from an invariant state. -/
theorem runCalls_perm (env : Env) (cs : List HostCall) (s : HostState)
    (h : s.plugins.Perm (pluginInfos s)) :
    (runCalls env s cs).plugins.Perm (pluginInfos (runCalls env s cs)) := by
  induction cs generalizing s with
  | nil => exact h
  | cons c cs ih => exact ih _ (stepState_perm env s c h)

/-- One host operation only appends to the flat plugin list. -/
theorem stepState_plugins_append (env : Env) (s : HostState) (c : HostCall) :
    ∃ t, (stepState env s c).plugins = s.plugins ++ t := by
  cases c with
  | analyzer n =>
    rcases Analyzer_state_cases env s n with hc | ⟨plug, info, hc⟩ <;>
      rw [stepState, hc]
    · exact ⟨[], (List.append_nil _).symm⟩
    · exact ⟨[info], rfl⟩
  | languageRuntime n =>
    rcases LanguageRuntime_state_cases env s n with hc | ⟨plug, info, hc⟩ <;>
      rw [stepState, hc]
    · exact ⟨[], (List.append_nil _).symm⟩
    · exact ⟨[info], rfl⟩
  | provider pkg v =>
    rcases Provider_state_cases env s pkg v with hc | ⟨plug, info, hc⟩ <;>
      rw [stepState, hc]
    · exact ⟨[], (List.append_nil _).symm⟩
    · exact ⟨[info], rfl⟩

/-! ### Claim theorems -/

/-- C2: if `Provider(pkg, nil)` succeeds with a handle, then after any further
FIFO sequence of load requests, `Provider(pkg, nil)` succeeds again with the
identity-equal handle, leaves the state unchanged, and performs no side
effects at all — in particular it spawns no process. -/
theorem C2_provider_memoized (env : Env) (s : HostState) (pkg : String)
    (h0 : Nat) (cs : List HostCall)
    (hsucc : (Provider env s pkg none).ret = .ok (some h0)) :
    (Provider env (runCalls env (Provider env s pkg none).state cs) pkg none).ret
        = .ok (some h0) ∧
    (Provider env (runCalls env (Provider env s pkg none).state cs) pkg none).state
        = runCalls env (Provider env s pkg none).state cs ∧
    (Provider env (runCalls env (Provider env s pkg none).state cs) pkg none).trace
        = [] := by
  obtain ⟨e, hl, hp⟩ := Provider_success_lookup env s pkg none h0 hsucc
  have hl2 := runCalls_resource_lookup env cs _ hl
  rw [Provider_hit env _ pkg none e hl2]
  exact ⟨by simp [providerCacheHit, hp], rfl, rfl⟩

/-- Witness for C2 at a concrete environment: a second `Provider("aws")`
call, after an interleaved analyzer load, returns the identical handle 7. -/
theorem C2_witness :
    (Provider envOk (runCalls envOk (Provider envOk newDefaultHost "aws" none).state
        [HostCall.analyzer "policy"]) "aws" none).ret = .ok (some 7) ∧
    (Provider envOk (runCalls envOk (Provider envOk newDefaultHost "aws" none).state
        [HostCall.analyzer "policy"]) "aws" none).trace = [] := by
  have h := C2_provider_memoized envOk newDefaultHost "aws" 7
    [HostCall.analyzer "policy"] rfl
  exact ⟨h.1, h.2.2⟩

/-- C3: on a cache hit with a requested version, the call fails exactly when
the cached version is absent or not semver greater-or-equal; on failure — and
on success — the state is untouched and no process is spawned. -/
theorem C3_cache_hit_version_check (env : Env) (s : HostState) (pkg : String)
    (plug : resourcePlugin) (v : SemVer)
    (h : lookupMap pkg s.resourcePlugins = some plug) :
    (plug.Info.version = none →
      Provider env s pkg (some v) = ⟨.error (.versionUnknown v), s, []⟩) ∧
    (∀ cv, plug.Info.version = some cv →
      (cv.GTE v = false →
        Provider env s pkg (some v) = ⟨.error (.versionMismatch v cv), s, []⟩) ∧
      (cv.GTE v = true →
        Provider env s pkg (some v) = ⟨.ok (some plug.Plugin), s, []⟩)) := by
  rw [Provider_hit env s pkg (some v) plug h]
  refine ⟨fun hv => ?_, fun cv hv => ⟨fun hg => ?_, fun hg => ?_⟩⟩
  · simp [providerCacheHit, hv]
  · simp [providerCacheHit, hv, hg]
  · simp [providerCacheHit, hv, hg]

/-- Witness for C3: with version 1.2.0 cached for `"aws"`, requesting 2.0.0
fails with a version-mismatch error and changes nothing. -/
theorem C3_witness :
    Provider envOk (Provider envOk newDefaultHost "aws" none).state "aws"
        (some ⟨2, 0, 0⟩) =
      ⟨.error (.versionMismatch ⟨2, 0, 0⟩ ⟨1, 2, 0⟩),
        (Provider envOk newDefaultHost "aws" none).state, []⟩ :=
  ((C3_cache_hit_version_check envOk
      (Provider envOk newDefaultHost "aws" none).state "aws"
      ⟨7, ⟨"aws", .resourceKind, some ⟨1, 2, 0⟩⟩⟩ ⟨2, 0, 0⟩ rfl).2
    ⟨1, 2, 0⟩ rfl).1 rfl

/-- C9 (amended): the load worker serializes every interleaving into a FIFO
sequence of load closures; once a provider for `pkg` is cached no later
request spawns a process for it, a single `Provider` call spawns at most one
process, and a successful call always leaves `pkg` cached.  (A failed load
does not cache, so a later retry may spawn a second process; see the
counterexample.) -/
theorem C9_amended_single_spawn :
    (∀ env s (pkg : String) (e : resourcePlugin) cs,
      lookupMap pkg s.resourcePlugins = some e →
      spawnCount pkg (runTrace env s cs) = 0) ∧
    (∀ env s pkg v q, spawnCount q (Provider env s pkg v).trace ≤ 1) ∧
    (∀ env s pkg v h0, (Provider env s pkg v).ret = .ok (some h0) →
      ∃ e : resourcePlugin,
        lookupMap pkg (Provider env s pkg v).state.resourcePlugins = some e) := by
  refine ⟨fun env s pkg e cs h => runTrace_spawnCount_cached env cs s h,
    fun env s pkg v q => Provider_spawnCount_le_one env s pkg v q,
    fun env s pkg v h0 hs => ?_⟩
  obtain ⟨e, hl, _⟩ := Provider_success_lookup env s pkg v h0 hs
  exact ⟨e, hl⟩

/-- Witness for C9: after a successful `"aws"` load, two further `"aws"`
requests spawn nothing. -/
theorem C9_witness :
    spawnCount "aws" (runTrace envOk
      (Provider envOk newDefaultHost "aws" none).state
      [HostCall.provider "aws" none, HostCall.provider "aws" none]) = 0 :=
  C9_amended_single_spawn.1 envOk
    (Provider envOk newDefaultHost "aws" none).state "aws"
    ⟨7, ⟨"aws", .resourceKind, some ⟨1, 2, 0⟩⟩⟩
    [HostCall.provider "aws" none, HostCall.provider "aws" none] rfl

/-- Counterexample to C9 as stated: when a load fails after its spawn (here
`GetPluginInfo` fails), nothing is cached, so a sequential pair of
`Provider("aws")` requests — a valid interleaving, since the worker runs
requests FIFO — spawns two processes for the same package. -/
theorem C9_counterexample :
    spawnCount "aws" (runTrace envInfoFail newDefaultHost
      [HostCall.provider "aws" none, HostCall.provider "aws" none]) = 2 := by
  decide

/-- C10: when a constructor reports neither a plugin nor an error (Go
`(nil, nil)`), each host method returns `(nil, nil)` — no "not found" error —
and changes nothing. -/
theorem C10_nil_nil (env : Env) (s : HostState) :
    (∀ n, lookupMap n s.analyzerPlugins = none →
      env.newAnalyzer n = .ok none → Analyzer env s n = ⟨.ok none, s, []⟩) ∧
    (∀ pkg v, lookupMap pkg s.resourcePlugins = none →
      env.newProvider pkg v = .ok none →
      Provider env s pkg v = ⟨.ok none, s, []⟩) ∧
    (∀ r, lookupMap r s.languagePlugins = none →
      env.newLanguageRuntime r = .ok none →
      LanguageRuntime env s r = ⟨.ok none, s, []⟩) := by
  refine ⟨fun n hl hn => ?_, fun pkg v hl hn => ?_, fun r hl hn => ?_⟩
  · unfold Analyzer analyzerLoad
    rw [hl, hn]
  · unfold Provider providerLoad
    rw [hl, hn]
  · unfold LanguageRuntime languageLoad
    rw [hl, hn]

/-- Witness for C10: a nil-returning constructor environment makes all three
methods return `(nil, nil)`. -/
theorem C10_witness :
    Analyzer envNilPlugin newDefaultHost "policy" =
        ⟨.ok none, newDefaultHost, []⟩ ∧
    Provider envNilPlugin newDefaultHost "aws" none =
        ⟨.ok none, newDefaultHost, []⟩ ∧
    LanguageRuntime envNilPlugin newDefaultHost "nodejs" =
        ⟨.ok none, newDefaultHost, []⟩ :=
  ⟨(C10_nil_nil envNilPlugin newDefaultHost).1 "policy" rfl rfl,
    (C10_nil_nil envNilPlugin newDefaultHost).2.1 "aws" none rfl rfl,
    (C10_nil_nil envNilPlugin newDefaultHost).2.2 "nodejs" rfl rfl⟩

/-- C1: on a cache miss, a handle returned by `Provider` has had `Configure`
called on it exactly once, successfully, before it is returned; if `Configure`
fails, `Provider` returns an error and the state — registry maps and flat
list — is untouched; cache hits perform no `Configure` call at all. -/
theorem C1_configure_exactly_once (env : Env) (s : HostState) (pkg : String)
    (v : Option SemVer) :
    (lookupMap pkg s.resourcePlugins = none →
      (∀ h0, (Provider env s pkg v).ret = .ok (some h0) →
        configureCount h0 true (Provider env s pkg v).trace = 1 ∧
        configureCount h0 false (Provider env s pkg v).trace = 0) ∧
      (∀ p info cfg e, env.newProvider pkg v = .ok (some p) →
        env.getPluginInfo p = .ok info → getConfig env pkg = .ok cfg →
        env.configure p cfg = some e →
        (Provider env s pkg v).ret = .error (.configureError pkg e) ∧
        (Provider env s pkg v).state = s)) ∧
    (∀ plug, lookupMap pkg s.resourcePlugins = some plug →
      (Provider env s pkg v).trace = []) := by
  constructor
  · intro hl
    constructor
    · intro h0 hsucc
      rw [Provider_miss env s pkg v hl] at hsucc ⊢
      unfold providerLoad at hsucc ⊢
      repeat' split at hsucc
      · exact absurd hsucc (by simp)
      · exact absurd hsucc (by simp)
      · exact absurd hsucc (by simp)
      · exact absurd hsucc (by simp)
      · exact absurd hsucc (by simp)
      · rcases fireEvents_ret_cases env _ _ _ _ with hr | ⟨e, hr⟩
        · rw [hr] at hsucc
          injection hsucc with hsucc
          injection hsucc with hsucc
          subst hsucc
          rw [fireEvents_trace]
          constructor
          · simp [configureCount, List.append_eq, configureCount_append,
              configureCount_providerWarnings]
          · simp [configureCount, List.append_eq, configureCount_append,
              configureCount_providerWarnings]
        · rw [hr] at hsucc
          exact absurd hsucc (by simp)
    · intro p info cfg e hnp hgi hcfg hconf
      rw [Provider_miss env s pkg v hl]
      unfold providerLoad
      simp only [hnp, hgi, hcfg, hconf]
      exact ⟨trivial, trivial⟩
  · intro plug hl
    rw [Provider_hit env s pkg v plug hl, providerCacheHit_trace]

/-- Witness for C1: the fresh `"aws"` load configures handle 7 exactly once,
and with a failing `Configure` the load errors and leaves the host empty. -/
theorem C1_witness :
    configureCount 7 true (Provider envOk newDefaultHost "aws" none).trace = 1 ∧
    (Provider envConfigureFail newDefaultHost "aws" none).ret =
        .error (.configureError "aws" "cfgboom") ∧
    (Provider envConfigureFail newDefaultHost "aws" none).state =
        newDefaultHost := by
  refine ⟨(((C1_configure_exactly_once envOk newDefaultHost "aws" none).1
    rfl).1 7 rfl).1, ?_, ?_⟩
  · exact (((C1_configure_exactly_once envConfigureFail newDefaultHost "aws"
      none).1 rfl).2 7 ⟨"aws", .resourceKind, some ⟨1, 2, 0⟩⟩ [] "cfgboom"
      rfl rfl rfl rfl).1
  · exact (((C1_configure_exactly_once envConfigureFail newDefaultHost "aws"
      none).1 rfl).2 7 ⟨"aws", .resourceKind, some ⟨1, 2, 0⟩⟩ [] "cfgboom"
      rfl rfl rfl rfl).2

/-- C4: on a cache miss with a requested version, when the discovered version
is missing or lower the load still succeeds and the stale-version warning —
whose text starts with "resource plugin NAME is expected to have version
>=V, but has ACTUAL" — is emitted, unless `PULUMI_DEV` is truthy, in which
case no warning at all is emitted. -/
theorem C4_stale_version_warning (env : Env) (s : HostState) (pkg : String)
    (v : SemVer) (p : Nat) (info : PluginInfo) (cfg : List (String × String))
    (hl : lookupMap pkg s.resourcePlugins = none)
    (hnp : env.newProvider pkg (some v) = .ok (some p))
    (hgi : env.getPluginInfo p = .ok info)
    (hstale : info.version = none ∨
      ∃ cv, info.version = some cv ∧ cv.GTE v = false)
    (hcfg : getConfig env pkg = .ok cfg)
    (hconf : env.configure p cfg = none)
    (hev : env.events = none) :
    (Provider env s pkg (some v)).ret = .ok (some p) ∧
    (env.pulumiDev = false →
      HostEvent.warning (warnMsg info.name v info.version) ∈
        (Provider env s pkg (some v)).trace) ∧
    (env.pulumiDev = true →
      warningCount (Provider env s pkg (some v)).trace = 0) ∧
    warnMsg info.name v info.version =
      warnPrefix info.name v info.version ++
        "; the wrong version may be on your path, or this may be a bug in the plugin" := by
  rw [Provider_miss env s pkg (some v) hl]
  unfold providerLoad
  simp only [hnp, hgi, hcfg, hconf]
  unfold fireEvents
  rw [hev]
  refine ⟨rfl, fun hdev => ?_, fun hdev => ?_, rfl⟩
  · unfold providerWarnings
    rw [hdev]
    rcases hstale with hv | ⟨cv, hv, hg⟩
    · rw [hv]
      simp
    · rw [hv]
      simp [hg]
  · unfold providerWarnings
    rw [hdev]
    rcases hstale with hv | ⟨cv, hv, hg⟩
    · rw [hv]
      simp [warningCount]
    · rw [hv]
      simp [warningCount, hg]

/-- Witness for C4: requesting 1.5.0 while the discovered plugin is 1.2.0
emits the warning, and the same request in dev mode emits none. -/
theorem C4_witness :
    HostEvent.warning (warnMsg "aws" ⟨1, 5, 0⟩ (some ⟨1, 2, 0⟩)) ∈
        (Provider envOk newDefaultHost "aws" (some ⟨1, 5, 0⟩)).trace ∧
    warningCount (Provider envDev newDefaultHost "aws" (some ⟨1, 5, 0⟩)).trace
        = 0 :=
  ⟨(C4_stale_version_warning envOk newDefaultHost "aws" ⟨1, 5, 0⟩ 7
      ⟨"aws", .resourceKind, some ⟨1, 2, 0⟩⟩ [] rfl rfl rfl
      (Or.inr ⟨⟨1, 2, 0⟩, rfl, by decide⟩) rfl rfl rfl).2.1 rfl,
    (C4_stale_version_warning envDev newDefaultHost "aws" ⟨1, 5, 0⟩ 7
      ⟨"aws", .resourceKind, some ⟨1, 2, 0⟩⟩ [] rfl rfl rfl
      (Or.inr ⟨⟨1, 2, 0⟩, rfl, by decide⟩) rfl rfl rfl).2.2.1 rfl⟩

/-- C5 (amended): for each of the three methods, when `GetPluginInfo` fails
after the spawn, the error is propagated and nothing is inserted into the
registry maps or the flat list — the state is exactly the pre-call state, so
the next request for the same key retries the load from scratch — but the
child process is NOT closed (the trace holds only the spawn, no close call);
and when the post-insert `OnPluginLoad` callback fails, the error is
propagated while the entry REMAINS inserted. -/
theorem C5_amended_failure_no_insert (env : Env) (s : HostState) :
    (∀ n p e, lookupMap n s.analyzerPlugins = none →
      env.newAnalyzer n = .ok (some p) → env.getPluginInfo p = .error e →
      Analyzer env s n =
        ⟨.error (.infoError e), s, [.spawn .analyzerKind n]⟩) ∧
    (∀ pkg v p e, lookupMap pkg s.resourcePlugins = none →
      env.newProvider pkg v = .ok (some p) → env.getPluginInfo p = .error e →
      Provider env s pkg v =
        ⟨.error (.infoError e), s, [.spawn .resourceKind pkg]⟩) ∧
    (∀ r p e, lookupMap r s.languagePlugins = none →
      env.newLanguageRuntime r = .ok (some p) →
      env.getPluginInfo p = .error e →
      LanguageRuntime env s r =
        ⟨.error (.infoError e), s, [.spawn .languageKind r]⟩) ∧
    (∀ pkg v p info cfg f e, lookupMap pkg s.resourcePlugins = none →
      env.newProvider pkg v = .ok (some p) → env.getPluginInfo p = .ok info →
      getConfig env pkg = .ok cfg → env.configure p cfg = none →
      env.events = some f → f info = some e →
      (Provider env s pkg v).ret = .error (.callbackError e) ∧
      lookupMap pkg (Provider env s pkg v).state.resourcePlugins =
        some ⟨p, info⟩ ∧
      (Provider env s pkg v).state.plugins = s.plugins ++ [info]) := by
  refine ⟨fun n p e hl hn hi => ?_, fun pkg v p e hl hn hi => ?_,
    fun r p e hl hn hi => ?_, fun pkg v p info cfg f e hl hn hi hc hcf hev hf => ?_⟩
  · unfold Analyzer analyzerLoad
    simp only [hl, hn, hi]
  · unfold Provider providerLoad
    simp only [hl, hn, hi]
  · unfold LanguageRuntime languageLoad
    simp only [hl, hn, hi]
  · rw [Provider_miss env s pkg v hl]
    unfold providerLoad
    simp only [hn, hi, hc, hcf]
    unfold fireEvents
    simp only [hev, hf]
    exact ⟨trivial, lookupMap_insert_self pkg _ _, trivial⟩

/-- Witness for C5 (amended): with `GetPluginInfo` failing, the analyzer load
errors without inserting; with a failing `OnPluginLoad`, the provider entry
stays inserted while the error propagates. -/
theorem C5_witness :
    Analyzer envInfoFail newDefaultHost "policy" =
      ⟨.error (.infoError "boom"), newDefaultHost,
        [.spawn .analyzerKind "policy"]⟩ ∧
    (Provider envCallbackFail newDefaultHost "aws" none).ret =
      .error (.callbackError "cbboom") ∧
    lookupMap "aws"
        (Provider envCallbackFail newDefaultHost "aws" none).state.resourcePlugins
      = some ⟨7, ⟨"aws", .resourceKind, some ⟨1, 2, 0⟩⟩⟩ :=
  ⟨(C5_amended_failure_no_insert envInfoFail newDefaultHost).1 "policy" 3
      "boom" rfl rfl rfl,
    ((C5_amended_failure_no_insert envCallbackFail newDefaultHost).2.2.2 "aws"
      none 7 ⟨"aws", .resourceKind, some ⟨1, 2, 0⟩⟩ []
      (fun _ => some "cbboom") "cbboom" rfl rfl rfl rfl rfl rfl rfl).1,
    ((C5_amended_failure_no_insert envCallbackFail newDefaultHost).2.2.2 "aws"
      none 7 ⟨"aws", .resourceKind, some ⟨1, 2, 0⟩⟩ []
      (fun _ => some "cbboom") "cbboom" rfl rfl rfl rfl rfl rfl rfl).2.1⟩

/-- Counterexample to C5 as stated: when `GetPluginInfo` fails after the
spawn, the load errors and inserts nothing, but no `Close` call on the child
ever appears — the trace is just the spawn, so the child is not closed. -/
theorem C5_counterexample :
    Analyzer envInfoFail newDefaultHost "policy" =
      ⟨.error (.infoError "boom"), newDefaultHost,
        [.spawn .analyzerKind "policy"]⟩ ∧
    closeCount (Analyzer envInfoFail newDefaultHost "policy").trace = 0 := by
  exact ⟨rfl, rfl⟩

/-- C6 (amended): `Close` is not idempotent.  A first `Close` on an open host
empties the three maps (keeping the flat list), marks the load channel
closed, and returns; a second `Close` panics, because `close` is called on
the already-closed load-request channel. -/
theorem C6_close_not_idempotent (env : Env) (s : HostState)
    (h : s.loadRequestsClosed = false) :
    ∃ s' tr r, Close env s = some (s', tr, r) ∧
      s'.analyzerPlugins = [] ∧ s'.languagePlugins = [] ∧
      s'.resourcePlugins = [] ∧ s'.plugins = s.plugins ∧
      s'.loadRequestsClosed = true ∧ Close env s' = none := by
  refine ⟨{ s with
      analyzerPlugins := []
      languagePlugins := []
      resourcePlugins := []
      loadRequestsClosed := true },
    s.analyzerPlugins.map (fun kv => HostEvent.closeCall kv.2.Plugin) ++
      s.resourcePlugins.map (fun kv => HostEvent.closeCall kv.2.Plugin) ++
      s.languagePlugins.map (fun kv => HostEvent.closeCall kv.2.Plugin),
    env.serverCancel, ?_, rfl, rfl, rfl, rfl, rfl, ?_⟩
  · unfold Close
    rw [h]
    rfl
  · unfold Close
    rfl

/-- Witness for C6 (amended): closing a fresh host once succeeds and closing
it again panics. -/
theorem C6_witness :
    (Close envOk newDefaultHost).isSome = true ∧
    (Close envOk newDefaultHost).bind (fun r => Close envOk r.1) = none := by
  obtain ⟨s', tr, r, h1, _, _, _, _, _, h2⟩ :=
    C6_close_not_idempotent envOk newDefaultHost rfl
  rw [h1]
  exact ⟨rfl, h2⟩

/-- Counterexample to C6 as stated: the second of two `Close` calls does not
complete — it panics on the already-closed load-request channel — so `Close`
twice is not equivalent to `Close` once. -/
theorem C6_counterexample :
    (Close envOk newDefaultHost).isSome = true ∧
    (Close envOk newDefaultHost).bind (fun r => Close envOk r.1) = none := by
  exact ⟨rfl, rfl⟩

/-- C7 (amended): until `Close`, the flat list returned by `ListPlugins` is a
permutation of the `PluginInfo` entries across the three kind maps and is
append-only; `Close` empties the maps but leaves the flat list intact, so
after `Close` the list still holds every plugin ever loaded. -/
theorem C7_list_matches_maps_until_close :
    (∀ env cs, (ListPlugins (runCalls env newDefaultHost cs)).Perm
        (pluginInfos (runCalls env newDefaultHost cs))) ∧
    (∀ env s c, ∃ t, ListPlugins (stepState env s c) = ListPlugins s ++ t) ∧
    (∀ env s, (Close env s).elim True (fun x =>
      ListPlugins x.1 = ListPlugins s ∧ pluginInfos x.1 = [])) := by
  refine ⟨fun env cs => runCalls_perm env cs newDefaultHost (List.Perm.refl []),
    fun env s c => stepState_plugins_append env s c, fun env s => ?_⟩
  unfold Close
  split
  · trivial
  · exact ⟨rfl, rfl⟩

/-- Counterexample to C7 as stated: after loading one provider and closing the
host, `ListPlugins` still returns that plugin while the three maps are empty,
so the list is no longer a permutation of the map entries. -/
theorem C7_counterexample :
    (Close envOk (stepState envOk newDefaultHost
        (HostCall.provider "aws" none))).isSome = true ∧
    ListPlugins ((Close envOk (stepState envOk newDefaultHost
        (HostCall.provider "aws" none))).getD (newDefaultHost, [], none)).1 =
      [⟨"aws", .resourceKind, some ⟨1, 2, 0⟩⟩] ∧
    pluginInfos ((Close envOk (stepState envOk newDefaultHost
        (HostCall.provider "aws" none))).getD (newDefaultHost, [], none)).1 =
      [] ∧
    ¬ (ListPlugins ((Close envOk (stepState envOk newDefaultHost
        (HostCall.provider "aws" none))).getD (newDefaultHost, [], none)).1).Perm
      (pluginInfos ((Close envOk (stepState envOk newDefaultHost
        (HostCall.provider "aws" none))).getD (newDefaultHost, [], none)).1) := by
  refine ⟨rfl, rfl, rfl, fun hp => absurd hp.length_eq (by decide)⟩

/-- C8: the assertion in `GetRequiredPlugins` is inverted.  With the Resource
bit set and the Language bit clear — the combination both the claim and the
assertion message call a programmer error — the call passes the assertion and
returns successfully; it is the Analyzer-only combination (neither Resource
nor Language) that fails the assertion. -/
theorem C8_assertion_inverted :
    GetRequiredPlugins envOk newDefaultHost progInfo0 ResourcePlugins =
      some (.ok [], newDefaultHost, []) ∧
    GetRequiredPlugins envOk newDefaultHost progInfo0 AnalyzerPlugins = none := by
  exact ⟨rfl, rfl⟩

end PluginHost
